import Mathlib

/-!
Shallow embedding of the BLE hydro-control subsystem (`control.c`, `app.c`).

`HydroState` collects the module-level statics of `control.c` together with
the shared telemetry cells `g_flow_x100` / `g_err` of `app.c`.  C doubles are
modelled as rationals; `uint32_t` / `uint16_t` / `uint8_t` arithmetic is
natural-number arithmetic reduced modulo the corresponding power of two
exactly where the C code wraps.
-/

namespace Hydro

/-- Module state: the statics of `control.c` plus the shared telemetry of
`app.c`.  `timer_running` models whether the periodic sleeptimer is actually
scheduled (set by a successful `sl_sleeptimer_start_periodic_timer_ms`,
cleared by `sl_sleeptimer_stop_timer`); `pump` models whether the actuator
drive is energised (`pump_on`); `sink` models whether `s_sink` is non-null. -/
structure HydroState where
  s_pulses : Nat
  s_last_pulses : Nat
  s_lpm : ℚ
  s_enabled : Bool
  s_error : Nat
  seconds_since_on : Nat
  sink : Bool
  g_flow_x100 : Nat
  g_err : Nat
  timer_running : Bool
  pump : Bool
  deriving DecidableEq

/-- `FLOW_HZ_PER_LPM` = 5.71 (control.c line 56). -/
def FLOW_HZ_PER_LPM : ℚ := 571 / 100

/-- `s_min_lpm_after` = 0.2 L/min (control.c line 81). -/
def s_min_lpm_after : ℚ := 2 / 10

/-- `s_min_after_s` = 3 (control.c line 82). -/
def s_min_after_s : Nat := 3

/-- Modulus of `uint32_t` arithmetic. -/
def UINT32_MOD : Nat := 2 ^ 32

/-- The pulse delta of one pass: the `uint32_t` subtraction
`p - s_last_pulses` (control.c line 206), i.e. wrapping modulo `2^32`. -/
def delta (st : HydroState) : Nat :=
  (st.s_pulses + UINT32_MOD - st.s_last_pulses) % UINT32_MOD

/-- The flow rate the pass derives from the delta: `dp / FLOW_HZ_PER_LPM`
(control.c line 212). -/
def measured_lpm (st : HydroState) : ℚ :=
  (delta st : ℚ) / FLOW_HZ_PER_LPM

/-- Value of the `seconds_since_on` static after the pass advances it
(control.c lines 215-220): incremented while enabled (saturating at 250),
reset to 0 when a pass runs while disabled. -/
def elapsedAfter (st : HydroState) : Nat :=
  if st.s_enabled = true then
    (if st.seconds_since_on < 250 then st.seconds_since_on + 1 else st.seconds_since_on)
  else 0

/-- Fault code held by `g_err` after one pass (control.c lines 222-232).
The three branches are translated literally; note the second branch
(`!s_enabled` gives 0) shadows the third (`!s_enabled && lpm > threshold`
gives 2), so the third is unreachable, exactly as in the source. -/
def errAfter (st : HydroState) : Nat :=
  if st.s_enabled = true ∧ s_min_after_s ≤ elapsedAfter st ∧
      measured_lpm st < s_min_lpm_after then 1
  else if st.s_enabled = false then 0
  else if st.s_enabled = false ∧ s_min_lpm_after < measured_lpm st then 2
  else st.g_err

/-- `(uint16_t)(s_lpm * 100.0 + 0.5)` (control.c line 235). -/
def toFlowX100 (lpm : ℚ) : Nat :=
  (Int.toNat ⌊lpm * 100 + 1 / 2⌋) % 65536

/-- Arguments of one sink invocation: `s_sink(shared_get_flow_x100()/100, p,
shared_get_err(), user)` (control.c line 244).  The first argument is the
`uint16` integer division before conversion to float, hence a natural. -/
structure SinkCall where
  lpm_arg : Nat
  pulses : Nat
  err : Nat
  deriving DecidableEq

/-- One pass of the periodic sampler `sample_cb` (control.c lines 197-246):
snapshot the pulse counter, compute the delta and L/min, advance the warming
counter, evaluate the fault branches, publish `(err, flow_x100)` to the
shared telemetry, and invoke the sink if registered. -/
def sample_cb (st : HydroState) : HydroState × Option SinkCall :=
  let p := st.s_pulses
  let lpm := measured_lpm st
  let secs := elapsedAfter st
  let err := errAfter st
  let fx := toFlowX100 lpm
  let st1 : HydroState :=
    { st with s_last_pulses := p, s_lpm := lpm, seconds_since_on := secs,
              g_err := err, g_flow_x100 := fx }
  (st1, if st.sink = true then some ⟨fx / 100, p, err⟩ else none)

/-- The state part of one sampling pass. -/
def sampleState (st : HydroState) : HydroState := (sample_cb st).1

/-- `hydro_enable` (control.c lines 265-287).  `timerStartOk` models the
status returned by `sl_sleeptimer_start_periodic_timer_ms`; the C code logs
that status and otherwise ignores it, so it only determines whether the
periodic sampling timer is actually running afterwards.  The C function
returns `void`: no status reaches the caller, so the model returns only the
new state. -/
def hydro_enable (st : HydroState) (onArg : Bool) (timerStartOk : Bool) : HydroState :=
  if onArg = st.s_enabled then st
  else
    let st1 : HydroState := { st with s_enabled := onArg, pump := onArg }
    if onArg = true then
      { st1 with timer_running := timerStartOk,
                 s_last_pulses := st1.s_pulses, s_error := 0 }
    else
      { st1 with timer_running := false }

/-- `flow_irq_cb` (control.c lines 171-175): `s_pulses++` in `uint32_t`. -/
def flow_irq_cb (st : HydroState) : HydroState :=
  { st with s_pulses := (st.s_pulses + 1) % UINT32_MOD }

/-- `hydro_get_pulse_count` (control.c line 293). -/
def hydro_get_pulse_count (st : HydroState) : Nat := st.s_pulses

/-- State after `hydro_init` / C static initialisation. -/
def initState : HydroState :=
  { s_pulses := 0, s_last_pulses := 0, s_lpm := 0, s_enabled := false,
    s_error := 0, seconds_since_on := 0, sink := false, g_flow_x100 := 0,
    g_err := 0, timer_running := false, pump := false }

/-- Events of the subsystem: a sensor edge (interrupt), a facade
enable/disable call (with the timer-start status for the enable case), and a
firing of the periodic sampler. -/
inductive Ev where
  | edge : Ev
  | enableOp : Bool → Bool → Ev
  | sample : Ev
  deriving DecidableEq

/-- Effect of one event on the state. -/
def step (st : HydroState) : Ev → HydroState
  | Ev.edge => flow_irq_cb st
  | Ev.enableOp onArg tOk => hydro_enable st onArg tOk
  | Ev.sample => sampleState st

/-- Run a sequence of events. -/
def run (st : HydroState) : List Ev → HydroState
  | [] => st
  | e :: es => run (step st e) es

/-- Does an event ask for enable-true? -/
def isEnableTrue : Ev → Bool
  | Ev.enableOp true _ => true
  | _ => false

/-- A trace is schedulable when every `sample` event fires while the
periodic timer is actually running: the timer service (spec section 6) only
invokes `sample_cb` while the periodic timer started by `hydro_enable` is
active, and `hydro_enable(false)` stops it. -/
def okTrace (st : HydroState) : List Ev → Bool
  | [] => true
  | e :: es =>
    (match e with
     | Ev.sample => st.timer_running
     | _ => true) && okTrace (step st e) es

/-- Deliver `n` sensor edges. -/
def addEdges (st : HydroState) : Nat → HydroState
  | 0 => st
  | n + 1 => flow_irq_cb (addEdges st n)

/-- Run sampling periods; the list gives the number of edges arriving in
each period, each period ending with one `sample_cb` pass. -/
def runPeriods (st : HydroState) : List Nat → HydroState
  | [] => st
  | n :: ns => runPeriods (sampleState (addEdges st n)) ns

/-! ### Helper lemmas shared by the claim proofs -/

/-- A sampling pass leaves the enabled flag alone. -/
theorem sampleState_s_enabled (st : HydroState) :
    (sampleState st).s_enabled = st.s_enabled := rfl

/-- A sampling pass leaves the pulse counter alone. -/
theorem sampleState_s_pulses (st : HydroState) :
    (sampleState st).s_pulses = st.s_pulses := rfl

/-- A sampling pass stores the snapshot as the new baseline. -/
theorem sampleState_s_last_pulses (st : HydroState) :
    (sampleState st).s_last_pulses = st.s_pulses := rfl

/-- A sampling pass advances the warming counter to `elapsedAfter`. -/
theorem sampleState_seconds (st : HydroState) :
    (sampleState st).seconds_since_on = elapsedAfter st := rfl

/-- A sampling pass publishes `errAfter` as the shared fault code. -/
theorem sampleState_g_err (st : HydroState) :
    (sampleState st).g_err = errAfter st := rfl

/-- While enabled, a pass whose measured flow is at or above the threshold
writes no fault update: `g_err` keeps its previous value. -/
theorem enabled_highflow_keeps_fault (st : HydroState)
    (hen : st.s_enabled = true)
    (hlpm : s_min_lpm_after ≤ measured_lpm st) :
    errAfter st = st.g_err := by
  have h1 : ¬ (st.s_enabled = true ∧ s_min_after_s ≤ elapsedAfter st ∧
      measured_lpm st < s_min_lpm_after) := by
    rintro ⟨-, -, h⟩
    exact absurd hlpm (not_le.mpr h)
  have h2 : ¬ st.s_enabled = false := by simp [hen]
  rw [errAfter, if_neg h1, if_neg h2, if_neg (fun h => h2 h.1)]

/-- Any pass that runs while disabled publishes fault code 0: the second
branch of the chain fires, shadowing the `UnexpectedFlow` branch. -/
theorem disabled_pass_err (st : HydroState) (hdis : st.s_enabled = false) :
    errAfter st = 0 := by
  have h1 : ¬ (st.s_enabled = true ∧ s_min_after_s ≤ elapsedAfter st ∧
      measured_lpm st < s_min_lpm_after) := by
    rintro ⟨h, -, -⟩
    rw [hdis] at h
    cases h
  rw [errAfter, if_neg h1, if_pos hdis]

/-- With the baseline caught up to the counter the measured delta is 0. -/
theorem delta_of_base (st : HydroState)
    (hbase : st.s_last_pulses = st.s_pulses) : delta st = 0 := by
  rw [delta, hbase, Nat.add_sub_cancel_left, Nat.mod_self]

/-- Zero delta means zero measured flow. -/
theorem lpm_of_zero_delta (st : HydroState) (hd : delta st = 0) :
    measured_lpm st = 0 := by
  rw [measured_lpm, hd, FLOW_HZ_PER_LPM]
  norm_num

/-- While enabled with the baseline caught up (zero flow), a pass sets the
fault to 1 exactly when the advanced warming counter reaches the grace
bound, and otherwise keeps the previous fault. -/
theorem enabled_zeroflow_err (st : HydroState)
    (hen : st.s_enabled = true) (hbase : st.s_last_pulses = st.s_pulses) :
    errAfter st = (if s_min_after_s ≤ elapsedAfter st then 1 else st.g_err) := by
  have hlt : measured_lpm st < s_min_lpm_after := by
    rw [lpm_of_zero_delta st (delta_of_base st hbase), s_min_lpm_after]
    norm_num
  rcases le_or_lt s_min_after_s (elapsedAfter st) with h3 | h3
  · rw [errAfter, if_pos ⟨hen, h3, hlt⟩, if_pos h3]
  · have hn1 : ¬ (st.s_enabled = true ∧ s_min_after_s ≤ elapsedAfter st ∧
        measured_lpm st < s_min_lpm_after) := by
      rintro ⟨-, hh, -⟩
      exact absurd hh (not_le.mpr h3)
    have hn2 : ¬ st.s_enabled = false := by simp [hen]
    rw [errAfter, if_neg hn1, if_neg hn2, if_neg (fun h => hn2 h.1),
        if_neg (not_le.mpr h3)]

/-- Field-level description of one zero-flow pass while enabled. -/
theorem sampleState_zero_fields (st : HydroState)
    (hen : st.s_enabled = true) (hbase : st.s_last_pulses = st.s_pulses) :
    (sampleState st).s_enabled = true ∧
    (sampleState st).s_pulses = st.s_pulses ∧
    (sampleState st).s_last_pulses = st.s_pulses ∧
    (sampleState st).s_error = st.s_error ∧
    (sampleState st).timer_running = st.timer_running ∧
    (sampleState st).pump = st.pump ∧
    (sampleState st).seconds_since_on
      = (if st.seconds_since_on < 250 then st.seconds_since_on + 1
         else st.seconds_since_on) ∧
    (sampleState st).g_err
      = (if 3 ≤ (if st.seconds_since_on < 250 then st.seconds_since_on + 1
          else st.seconds_since_on) then 1 else st.g_err) := by
  have hsec : elapsedAfter st
      = (if st.seconds_since_on < 250 then st.seconds_since_on + 1
         else st.seconds_since_on) := by
    rw [elapsedAfter, if_pos hen]
  refine ⟨by rw [sampleState_s_enabled, hen], rfl, rfl, rfl, rfl, rfl, ?_, ?_⟩
  · rw [sampleState_seconds, hsec]
  · rw [sampleState_g_err, enabled_zeroflow_err st hen hbase, hsec, s_min_after_s]

/-- Delivering edges touches only the pulse counter. -/
theorem addEdges_fields (st : HydroState) (n : Nat) :
    (addEdges st n).s_enabled = st.s_enabled ∧
    (addEdges st n).seconds_since_on = st.seconds_since_on ∧
    (addEdges st n).g_err = st.g_err ∧
    (addEdges st n).s_last_pulses = st.s_last_pulses := by
  induction n with
  | zero => exact ⟨rfl, rfl, rfl, rfl⟩
  | succ n ih => exact ⟨ih.1, ih.2.1, ih.2.2.1, ih.2.2.2⟩

/-- While enabled with the warming counter still inside the grace window, a
pass keeps the previous fault code whatever the measured flow. -/
theorem warming_pass_keeps_fault (st : HydroState) (hen : st.s_enabled = true)
    (hsec : st.seconds_since_on + 1 < 3) :
    errAfter st = st.g_err := by
  have hel : elapsedAfter st = st.seconds_since_on + 1 := by
    rw [elapsedAfter, if_pos hen, if_pos (by omega)]
  have hn1 : ¬ (st.s_enabled = true ∧ s_min_after_s ≤ elapsedAfter st ∧
      measured_lpm st < s_min_lpm_after) := by
    rintro ⟨-, hh, -⟩
    rw [hel] at hh
    simp only [s_min_after_s] at hh
    omega
  have hn2 : ¬ st.s_enabled = false := by simp [hen]
  rw [errAfter, if_neg hn1, if_neg hn2, if_neg (fun h => hn2 h.1)]

/-- Running `k` zero-flow sampling periods from an enabled state with the
baseline caught up: pulses, baseline, error latch, timer and pump are
untouched; the warming counter advances (saturating at 250); the fault
becomes 1 as soon as any pass saw the counter at or past 3, and otherwise
keeps its initial value. -/
theorem zrun_fields (k : Nat) (st : HydroState)
    (hen : st.s_enabled = true)
    (hbase : st.s_last_pulses = st.s_pulses)
    (hcap : st.seconds_since_on ≤ 250) :
    (runPeriods st (List.replicate k 0)).s_enabled = true ∧
    (runPeriods st (List.replicate k 0)).s_pulses = st.s_pulses ∧
    (runPeriods st (List.replicate k 0)).s_last_pulses = st.s_pulses ∧
    (runPeriods st (List.replicate k 0)).s_error = st.s_error ∧
    (runPeriods st (List.replicate k 0)).timer_running = st.timer_running ∧
    (runPeriods st (List.replicate k 0)).pump = st.pump ∧
    (runPeriods st (List.replicate k 0)).seconds_since_on
      = min (st.seconds_since_on + k) 250 ∧
    (runPeriods st (List.replicate k 0)).g_err
      = (if 1 ≤ k ∧ 3 ≤ st.seconds_since_on + k then 1 else st.g_err) := by
  induction k generalizing st with
  | zero =>
      refine ⟨hen, rfl, hbase, rfl, rfl, rfl, ?_, ?_⟩
      · show st.seconds_since_on = min (st.seconds_since_on + 0) 250
        omega
      · show st.g_err = if 1 ≤ 0 ∧ 3 ≤ st.seconds_since_on + 0 then 1 else st.g_err
        simp
  | succ k ih =>
      obtain ⟨e1, e2, e3, e4, e5, e6, e7, e8⟩ := sampleState_zero_fields st hen hbase
      have hbase1 : (sampleState st).s_last_pulses = (sampleState st).s_pulses := by
        rw [e3, e2]
      have hcap1 : (sampleState st).seconds_since_on ≤ 250 := by
        rw [e7]
        split <;> omega
      obtain ⟨f1, f2, f3, f4, f5, f6, f7, f8⟩ := ih (sampleState st) e1 hbase1 hcap1
      have hrw : runPeriods st (List.replicate (k + 1) 0)
          = runPeriods (sampleState st) (List.replicate k 0) := rfl
      refine ⟨?_, ?_, ?_, ?_, ?_, ?_, ?_, ?_⟩ <;> rw [hrw]
      · rw [f1]
      · rw [f2, e2]
      · rw [f3, e2]
      · rw [f4, e4]
      · rw [f5, e5]
      · rw [f6, e6]
      · rw [f7, e7]
        split <;> omega
      · rw [f8, e7, e8]
        split_ifs <;> omega

/-- Field-level description of `hydro_enable(false)` from an enabled state:
pump and timer go off, everything else — including the shared telemetry and
the warming counter — is untouched. -/
theorem hydro_enable_off_fields (st : HydroState) (tOk : Bool)
    (hen : st.s_enabled = true) :
    (hydro_enable st false tOk).s_enabled = false ∧
    (hydro_enable st false tOk).pump = false ∧
    (hydro_enable st false tOk).timer_running = false ∧
    (hydro_enable st false tOk).s_pulses = st.s_pulses ∧
    (hydro_enable st false tOk).s_last_pulses = st.s_last_pulses ∧
    (hydro_enable st false tOk).seconds_since_on = st.seconds_since_on ∧
    (hydro_enable st false tOk).g_err = st.g_err ∧
    (hydro_enable st false tOk).g_flow_x100 = st.g_flow_x100 ∧
    (hydro_enable st false tOk).s_error = st.s_error := by
  simp [hydro_enable, hen]

/-- Field-level description of `hydro_enable(true)` from a disabled state:
the subsystem becomes enabled with the pump on, the timer runs exactly when
the start call succeeded, the baseline and internal `s_error` latch are
reset — but the warming counter and the shared telemetry are untouched. -/
theorem hydro_enable_on_fields (st : HydroState) (tOk : Bool)
    (hdis : st.s_enabled = false) :
    (hydro_enable st true tOk).s_enabled = true ∧
    (hydro_enable st true tOk).pump = true ∧
    (hydro_enable st true tOk).timer_running = tOk ∧
    (hydro_enable st true tOk).s_pulses = st.s_pulses ∧
    (hydro_enable st true tOk).s_last_pulses = st.s_pulses ∧
    (hydro_enable st true tOk).s_error = 0 ∧
    (hydro_enable st true tOk).seconds_since_on = st.seconds_since_on ∧
    (hydro_enable st true tOk).g_err = st.g_err ∧
    (hydro_enable st true tOk).g_flow_x100 = st.g_flow_x100 := by
  simp [hydro_enable, hdis]

/-! ### Claim C1 -/

/-- Disabled state with 57 pending pulses: the pass measures
5700/571 (about 9.98) L/min while `s_enabled` is false. -/
def c1state : HydroState := { initState with s_pulses := 57 }

/-- The delta of `c1state` is 57. -/
theorem delta_c1 : delta c1state = 57 := by
  norm_num [delta, c1state, initState, UINT32_MOD]

/-- The measured flow of `c1state` is 5700/571 L/min. -/
theorem lpm_c1 : measured_lpm c1state = 5700 / 571 := by
  rw [measured_lpm, delta_c1, FLOW_HZ_PER_LPM]
  norm_num

/-- Claim C1 (evaluation at the failing input): a sampling pass that runs
while EnabledState is false with a pulse delta of 57 — measured flow about
9.98 L/min, well above zero — writes fault code 0 (Ok) to shared telemetry,
not 2 (UnexpectedFlow): the branch that would write 2 is shadowed by the
preceding plain `!s_enabled` branch.  (The delta = 0 half of the claim does
hold: disabled passes always write 0.) -/
theorem c1_disabled_nonzero_flow_reports_ok :
    c1state.s_enabled = false ∧
    s_min_lpm_after < measured_lpm c1state ∧
    (sampleState c1state).g_err = 0 := by
  refine ⟨rfl, ?_, ?_⟩
  · rw [lpm_c1, s_min_lpm_after]
    norm_num
  · rw [sampleState_g_err, disabled_pass_err c1state rfl]

/-! ### Claim C2 -/

/-- Enabled state past the grace period with DryRun (1) latched from the
previous period and 6 pending pulses (about 1.05 L/min, above threshold). -/
def c2state : HydroState :=
  { initState with s_enabled := true, seconds_since_on := 5, g_err := 1,
                   s_pulses := 6, timer_running := true, pump := true }

/-- The delta of `c2state` is 6. -/
theorem delta_c2 : delta c2state = 6 := by
  norm_num [delta, c2state, initState, UINT32_MOD]

/-- The measured flow of `c2state` is 600/571 L/min. -/
theorem lpm_c2 : measured_lpm c2state = 600 / 571 := by
  rw [measured_lpm, delta_c2, FLOW_HZ_PER_LPM]
  norm_num

/-- The measured flow of `c2state` is above the dry-run threshold. -/
theorem lpm_c2_above_threshold : s_min_lpm_after ≤ measured_lpm c2state := by
  rw [lpm_c2, s_min_lpm_after]
  norm_num

/-- Claim C2 counterexample: with DryRun latched in the previous period,
EnabledState true, warming counter past the grace period, and measured flow
about 1.05 L/min (at or above the 0.2 L/min threshold), the pass leaves the
shared fault code at 1, not Ok: no branch of `sample_cb` ever writes 0
while enabled. -/
theorem c2_recovery_does_not_clear_dryrun :
    c2state.s_enabled = true ∧ s_min_after_s ≤ elapsedAfter c2state ∧
    s_min_lpm_after ≤ measured_lpm c2state ∧ c2state.g_err = 1 ∧
    (sampleState c2state).g_err = 1 := by
  refine ⟨rfl, ?_, lpm_c2_above_threshold, ?_, ?_⟩
  · norm_num [elapsedAfter, c2state, initState, s_min_after_s]
  · decide
  · rw [sampleState_g_err, enabled_highflow_keeps_fault c2state rfl
      lpm_c2_above_threshold]
    decide

/-- Claim C2 amended: for every sampling pass with EnabledState true,
warming counter at or past the grace period, and measured flow at or above
the 0.2 L/min threshold, the pass leaves the exposed fault code unchanged;
in particular a previously latched DryRun persists instead of clearing. -/
theorem c2_nominal_pass_keeps_fault (st : HydroState)
    (hen : st.s_enabled = true)
    (_hsec : s_min_after_s ≤ elapsedAfter st)
    (hlpm : s_min_lpm_after ≤ measured_lpm st) :
    (sampleState st).g_err = st.g_err := by
  rw [sampleState_g_err, enabled_highflow_keeps_fault st hen hlpm]

/-- Witness for the amended C2 theorem at `c2state`. -/
theorem c2_nominal_pass_keeps_fault_witness :
    (sampleState c2state).g_err = c2state.g_err :=
  c2_nominal_pass_keeps_fault c2state rfl
    (by norm_num [elapsedAfter, c2state, initState, s_min_after_s])
    lpm_c2_above_threshold

/-- Claim C5 counterexample: when starting the periodic sampling timer fails
during `hydro_enable(true)` (`timerStartOk := false`), the subsystem still
ends up with EnabledState true and the pump energised, with only the timer
absent; nothing is reported to the caller (`hydro_enable` returns void). -/
theorem c5_enable_failure_still_enables :
    (hydro_enable initState true false).s_enabled = true ∧
    (hydro_enable initState true false).pump = true ∧
    (hydro_enable initState true false).timer_running = false := by
  decide

/-- Claim C5 amended: `hydro_enable(true)` from a disabled state sets
EnabledState true, turns the pump on and clears the internal `s_error`
latch regardless of whether the periodic sampling timer could be started;
the timer-start status only determines whether the sampling schedule runs,
and no failure value is returned to the caller. -/
theorem c5_enable_ignores_timer_status (st : HydroState) (tOk : Bool)
    (h : st.s_enabled = false) :
    (hydro_enable st true tOk).s_enabled = true ∧
    (hydro_enable st true tOk).pump = true ∧
    (hydro_enable st true tOk).s_error = 0 ∧
    (hydro_enable st true tOk).timer_running = tOk := by
  simp [hydro_enable, h]

/-- Witness for the amended C5 theorem at the initial state. -/
theorem c5_enable_ignores_timer_status_witness :
    (hydro_enable initState true false).s_enabled = true ∧
    (hydro_enable initState true false).pump = true ∧
    (hydro_enable initState true false).s_error = 0 ∧
    (hydro_enable initState true false).timer_running = false :=
  c5_enable_ignores_timer_status initState false rfl

/-- Claim C7: each pass computes the pulse delta as the unsigned 32-bit
difference current − previous (current − previous when no wrap occurs,
current + 2^32 − previous when the counter wrapped), updates the persistent
previous-count to the current snapshot, and derives the flow rate as
delta / 5.71 = delta · 100 / 571 L/min. -/
theorem c7_delta_and_rate (st : HydroState)
    (hp : st.s_pulses < UINT32_MOD) (hl : st.s_last_pulses < UINT32_MOD) :
    (st.s_last_pulses ≤ st.s_pulses →
      delta st = st.s_pulses - st.s_last_pulses) ∧
    (st.s_pulses < st.s_last_pulses →
      delta st = st.s_pulses + UINT32_MOD - st.s_last_pulses) ∧
    (sampleState st).s_lpm = (delta st : ℚ) * 100 / 571 ∧
    (sampleState st).s_last_pulses = st.s_pulses := by
  refine ⟨?_, ?_, ?_, rfl⟩
  · intro hle
    have h1 : st.s_pulses + UINT32_MOD - st.s_last_pulses
        = (st.s_pulses - st.s_last_pulses) + UINT32_MOD := by omega
    have h2 : st.s_pulses - st.s_last_pulses < UINT32_MOD := by omega
    rw [delta, h1, Nat.add_mod_right, Nat.mod_eq_of_lt h2]
  · intro hlt
    have h2 : st.s_pulses + UINT32_MOD - st.s_last_pulses < UINT32_MOD := by
      omega
    rw [delta, Nat.mod_eq_of_lt h2]
  · show measured_lpm st = (delta st : ℚ) * 100 / 571
    rw [measured_lpm, FLOW_HZ_PER_LPM, div_div_eq_mul_div]

/-- A state whose pulse counter has wrapped past the stored baseline. -/
def c7state : HydroState :=
  { initState with s_pulses := 5, s_last_pulses := 4294967290 }

/-- Witness for C7 at a wrapping input. -/
theorem c7_delta_and_rate_witness :
    (c7state.s_pulses < c7state.s_last_pulses →
      delta c7state = c7state.s_pulses + UINT32_MOD - c7state.s_last_pulses) ∧
    (sampleState c7state).s_lpm = (delta c7state : ℚ) * 100 / 571 :=
  ⟨(c7_delta_and_rate c7state (by decide) (by decide)).2.1,
   (c7_delta_and_rate c7state (by decide) (by decide)).2.2.1⟩

/-- Claim C8: a single event changes the pulse counter as follows: a sensor
edge increments it by one modulo 2^32, and every other event — sampling
passes and enable/disable calls alike — leaves it unchanged.  Hence over
every event sequence `hydro_get_pulse_count` is non-decreasing modulo
32-bit wraparound and is never decremented; the enable-time reset the claim
permits in fact never occurs (`hydro_enable` resets only the
`s_last_pulses` baseline). -/
theorem c8_pulse_count_monotonic (st : HydroState) (e : Ev) :
    hydro_get_pulse_count (step st e) =
      (if e = Ev.edge then (hydro_get_pulse_count st + 1) % UINT32_MOD
       else hydro_get_pulse_count st) := by
  cases e with
  | edge => rfl
  | enableOp onArg tOk =>
      have h : hydro_get_pulse_count (hydro_enable st onArg tOk)
          = hydro_get_pulse_count st := by
        rw [hydro_enable]
        split
        · rfl
        · split <;> rfl
      simpa [step] using h
  | sample => rfl

/-- Sink registered, 3 pending pulses: the pass measures 300/571 ≈ 0.53
L/min. -/
def c9state : HydroState := { initState with sink := true, s_pulses := 3 }

/-- The measured flow of `c9state` is 300/571 L/min. -/
theorem lpm_c9 : measured_lpm c9state = 300 / 571 := by
  have hd : delta c9state = 3 := by
    norm_num [delta, c9state, initState, UINT32_MOD]
  rw [measured_lpm, hd, FLOW_HZ_PER_LPM]
  norm_num

/-- The fixed-point publication of `c9state`'s measured flow is 53. -/
theorem fx_c9 : toFlowX100 (measured_lpm c9state) = 53 := by
  rw [toFlowX100, lpm_c9]
  have hfl : (⌊(300 / 571 : ℚ) * 100 + 1 / 2⌋ : ℤ) = 53 := by
    rw [Int.floor_eq_iff]
    constructor <;> norm_num
  rw [hfl]
  decide

/-- Claim C9 counterexample: with the sink registered and a pulse delta of
3 the pass computes flow 300/571 (about 0.53 L/min), but invokes the sink
with flow argument 0: the code passes `shared_get_flow_x100()/100`, an
integer division, not the pass's computed flow rate. -/
theorem c9_sink_receives_truncated_flow :
    (sample_cb c9state).2 = some ⟨0, 3, 0⟩ ∧
    (sample_cb c9state).1.s_lpm = 300 / 571 ∧
    ((0 : ℚ) ≠ (sample_cb c9state).1.s_lpm) := by
  have herr : errAfter c9state = 0 := disabled_pass_err c9state rfl
  refine ⟨?_, lpm_c9, ?_⟩
  · show (if c9state.sink = true then
        some (⟨toFlowX100 (measured_lpm c9state) / 100, c9state.s_pulses,
          errAfter c9state⟩ : SinkCall) else none) = some ⟨0, 3, 0⟩
    rw [fx_c9, herr]
    simp [c9state, initState]
  · show (0 : ℚ) ≠ measured_lpm c9state
    rw [lpm_c9]
    norm_num

/-- Claim C9 amended: whenever the sink is registered, each sampling pass
invokes it exactly once, synchronously at the end of the pass, with the
integer quotient `g_flow_x100 / 100` of the pass's published fixed-point
flow, the pass's pulse-count snapshot, and the pass's exposed fault code. -/
theorem c9_sink_call_shape (st : HydroState) (h : st.sink = true) :
    (sample_cb st).2 =
      some ⟨(sample_cb st).1.g_flow_x100 / 100, st.s_pulses,
            (sample_cb st).1.g_err⟩ := by
  simp [sample_cb, h]

/-- Witness for the amended C9 theorem at `c9state`. -/
theorem c9_sink_call_shape_witness :
    (sample_cb c9state).2 =
      some ⟨(sample_cb c9state).1.g_flow_x100 / 100, c9state.s_pulses,
            (sample_cb c9state).1.g_err⟩ :=
  c9_sink_call_shape c9state rfl

/-! ### Claim C3 -/

/-- The state freshly enabled from the initial state. -/
def freshEnabled : HydroState := hydro_enable initState true true

/-- State reached by enabling, sampling five zero-flow periods (which
latches DryRun and advances the warming counter to 5), and disabling. -/
def c3disabled : HydroState :=
  hydro_enable (runPeriods freshEnabled (List.replicate 5 0)) false true

/-- The state after calling `hydro_enable(true)` again on `c3disabled`. -/
def c3reenabled : HydroState := hydro_enable c3disabled true true

/-- Claim C3 (evaluation at the failing input): re-enabling after a
disable leaves the warming counter at 5 and the exposed fault at 1
(DryRun); only the pulse baseline and the internal — never exposed —
`s_error` latch are reset.  Consequently the very next zero-flow pass
reports DryRun immediately, with no grace period. -/
theorem c3_reenable_does_not_reset :
    c3reenabled.s_enabled = true ∧
    c3reenabled.s_last_pulses = c3reenabled.s_pulses ∧
    c3reenabled.s_error = 0 ∧
    c3reenabled.seconds_since_on = 5 ∧
    c3reenabled.g_err = 1 ∧
    (sampleState c3reenabled).g_err = 1 := by
  obtain ⟨b1, b2, b3, b4, b5, b6, b7, b8⟩ :=
    zrun_fields 5 freshEnabled rfl rfl (by decide)
  have hsecB : (runPeriods freshEnabled (List.replicate 5 0)).seconds_since_on
      = 5 := by
    rw [b7]
    decide
  have herrB : (runPeriods freshEnabled (List.replicate 5 0)).g_err = 1 := by
    rw [b8]
    decide
  obtain ⟨d1, d2, d3, d4, d5, d6, d7, d8, d9⟩ :=
    hydro_enable_off_fields (runPeriods freshEnabled (List.replicate 5 0))
      true b1
  obtain ⟨r1, r2, r3, r4, r5, r6, r7, r8, r9⟩ :=
    hydro_enable_on_fields c3disabled true d1
  have hre : c3reenabled = hydro_enable c3disabled true true := rfl
  have hdd : c3disabled
      = hydro_enable (runPeriods freshEnabled (List.replicate 5 0)) false true :=
    rfl
  have hbaseR : c3reenabled.s_last_pulses = c3reenabled.s_pulses := by
    rw [hre, r5, r4]
  have hsecR : c3reenabled.seconds_since_on = 5 := by
    rw [hre, r7, hdd, d6, hsecB]
  have herrR : c3reenabled.g_err = 1 := by
    rw [hre, r8, hdd, d7, herrB]
  refine ⟨r1, hbaseR, r6, hsecR, herrR, ?_⟩
  obtain ⟨-, -, -, -, -, -, -, z8⟩ := sampleState_zero_fields c3reenabled r1 hbaseR
  rw [z8, hsecR, herrR]
  decide

/-! ### Claim C4 -/

/-- Claim C4 counterexample: enabling from the initial state and sampling
three zero-flow periods (periods 0, 1, 2), the exposed fault after period 2
is already 1 (DryRun): the warming counter is incremented before the
`>= 3` comparison, so grace masks only periods 0 and 1 and the claimed
always-Ok window through period 2 fails. -/
theorem c4_dryrun_already_at_period_2 :
    (runPeriods freshEnabled (List.replicate 3 0)).g_err = 1 := by
  obtain ⟨-, -, -, -, -, -, -, b8⟩ :=
    zrun_fields 3 freshEnabled rfl rfl (by decide)
  rw [b8]
  decide

/-- Claim C4 amended: from a state freshly enabled at period 0 (fault Ok,
warming counter 0, baseline caught up), the exposed fault is Ok for periods
0 and 1 regardless of measured flow, and with zero flow sustained the fault
is DryRun for every period from period 2 onward. -/
theorem c4_grace_masks_periods_0_and_1 (st : HydroState)
    (hen : st.s_enabled = true) (hsec : st.seconds_since_on = 0)
    (herr : st.g_err = 0) (hbase : st.s_last_pulses = st.s_pulses) :
    (∀ e0, (runPeriods st [e0]).g_err = 0) ∧
    (∀ e0 e1, (runPeriods st [e0, e1]).g_err = 0) ∧
    (∀ n, (runPeriods st (List.replicate (n + 3) 0)).g_err = 1) := by
  have pass0 : ∀ e0 : Nat,
      (sampleState (addEdges st e0)).g_err = 0 ∧
      (sampleState (addEdges st e0)).s_enabled = true ∧
      (sampleState (addEdges st e0)).seconds_since_on = 1 := by
    intro e0
    obtain ⟨a1, a2, a3, -⟩ := addEdges_fields st e0
    have hen0 : (addEdges st e0).s_enabled = true := by rw [a1, hen]
    refine ⟨?_, ?_, ?_⟩
    · rw [sampleState_g_err, warming_pass_keeps_fault _ hen0 (by omega), a3, herr]
    · rw [sampleState_s_enabled, hen0]
    · rw [sampleState_seconds, elapsedAfter, if_pos hen0, a2, hsec,
        if_pos (by omega)]
  refine ⟨?_, ?_, ?_⟩
  · intro e0
    exact (pass0 e0).1
  · intro e0 e1
    obtain ⟨p1, p2, p3⟩ := pass0 e0
    obtain ⟨a1, a2, a3, -⟩ := addEdges_fields (sampleState (addEdges st e0)) e1
    have hen1 : (addEdges (sampleState (addEdges st e0)) e1).s_enabled = true := by
      rw [a1, p2]
    show (sampleState (addEdges (sampleState (addEdges st e0)) e1)).g_err = 0
    rw [sampleState_g_err, warming_pass_keeps_fault _ hen1 (by omega),
      a3, p1]
  · intro n
    obtain ⟨-, -, -, -, -, -, -, b8⟩ :=
      zrun_fields (n + 3) st hen hbase (by omega)
    rw [b8, hsec, herr, if_pos ⟨by omega, by omega⟩]

/-- Witness for the amended C4 theorem at the freshly enabled state, with
nonzero flow in the masked periods and one extra zero-flow period past the
bound. -/
theorem c4_grace_masks_periods_0_and_1_witness :
    (runPeriods freshEnabled [7]).g_err = 0 ∧
    (runPeriods freshEnabled [7, 9]).g_err = 0 ∧
    (runPeriods freshEnabled (List.replicate (1 + 3) 0)).g_err = 1 :=
  ⟨(c4_grace_masks_periods_0_and_1 freshEnabled rfl rfl rfl rfl).1 7,
   (c4_grace_masks_periods_0_and_1 freshEnabled rfl rfl rfl rfl).2.1 7 9,
   (c4_grace_masks_periods_0_and_1 freshEnabled rfl rfl rfl rfl).2.2 1⟩

/-! ### Claim C10 -/

/-- In a disabled state with the periodic timer stopped, any schedulable
trace without an enable-true call leaves the shared telemetry untouched:
edges only bump the pulse counter, redundant disables are no-ops, and a
sampling pass cannot fire because the timer is not running. -/
theorem run_frozen_disabled (evs : List Ev) : ∀ st : HydroState,
    st.s_enabled = false → st.timer_running = false →
    (∀ e ∈ evs, isEnableTrue e = false) →
    okTrace st evs = true →
    (run st evs).g_err = st.g_err ∧
    (run st evs).g_flow_x100 = st.g_flow_x100 := by
  induction evs with
  | nil =>
      intro st _ _ _ _
      exact ⟨rfl, rfl⟩
  | cons e es ih =>
      intro st hdis htm hno hok
      cases e with
      | edge =>
          have hok' : okTrace (flow_irq_cb st) es = true := by
            simpa [okTrace, step] using hok
          exact ih (flow_irq_cb st) hdis htm
            (fun e he => hno e (List.mem_cons_of_mem _ he)) hok'
      | sample =>
          simp [okTrace, htm] at hok
      | enableOp onArg tOk =>
          have hfalse : isEnableTrue (Ev.enableOp onArg tOk) = false :=
            hno _ (List.mem_cons_self _ _)
          have honArg : onArg = false := by
            cases onArg
            · rfl
            · simp [isEnableTrue] at hfalse
          subst honArg
          have hstep : step st (Ev.enableOp false tOk) = st := by
            simp [step, hydro_enable, hdis]
          have hok' : okTrace st es = true := by
            have := hok
            simp only [okTrace, Bool.true_and] at this
            rw [hstep] at this
            exact this
          have h := ih st hdis htm
            (fun e he => hno e (List.mem_cons_of_mem _ he)) hok'
          show (run (step st (Ev.enableOp false tOk)) es).g_err = st.g_err ∧
            (run (step st (Ev.enableOp false tOk)) es).g_flow_x100
              = st.g_flow_x100
          rw [hstep]
          exact h

/-- Claim C10: `hydro_enable(false)` from an enabled state stops the
periodic sampling timer, and along every following schedulable trace that
contains no enable-true call — so no sampling pass can execute — the shared
telemetry (`g_err`, including a previously latched DryRun, and
`g_flow_x100`) stays exactly what it was at the moment of disable. -/
theorem c10_disable_freezes_telemetry (st : HydroState) (tOk : Bool)
    (hen : st.s_enabled = true) (evs : List Ev)
    (hno : ∀ e ∈ evs, isEnableTrue e = false)
    (hok : okTrace (hydro_enable st false tOk) evs = true) :
    (hydro_enable st false tOk).timer_running = false ∧
    (run (hydro_enable st false tOk) evs).g_err = st.g_err ∧
    (run (hydro_enable st false tOk) evs).g_flow_x100 = st.g_flow_x100 := by
  obtain ⟨o1, o2, o3, o4, o5, o6, o7, o8, o9⟩ :=
    hydro_enable_off_fields st tOk hen
  have h := run_frozen_disabled evs (hydro_enable st false tOk) o1 o3 hno hok
  exact ⟨o3, by rw [h.1, o7], by rw [h.2, o8]⟩

/-- A disabled-interval trace: an edge, a redundant disable, another
edge. -/
def c10trace : List Ev := [Ev.edge, Ev.enableOp false true, Ev.edge]

/-- Witness for the C10 theorem at the freshly enabled state and
`c10trace`. -/
theorem c10_disable_freezes_telemetry_witness :
    (hydro_enable freshEnabled false true).timer_running = false ∧
    (run (hydro_enable freshEnabled false true) c10trace).g_err
      = freshEnabled.g_err ∧
    (run (hydro_enable freshEnabled false true) c10trace).g_flow_x100
      = freshEnabled.g_flow_x100 :=
  c10_disable_freezes_telemetry freshEnabled true rfl c10trace (by decide)
    (by decide)

/-! ### Claim C6 — interleaving model of the shared telemetry

`shared_set_err` / `shared_set_flow_x100` / `shared_get_err` /
`shared_get_flow_x100` (app.c lines 58-84) each protect a SINGLE field with
their own critical section, so each of the four operations is one atomic
step; the `(flow, err)` pair is never written inside one critical section.
A trace is any interleaving of such atomic operations; reads collect the
value the moment they execute. -/

/-- One atomic shared-telemetry operation. -/
inductive TelOp where
  | wErr : Nat → TelOp
  | wFlow : Nat → TelOp
  | rFlow : TelOp
  | rErr : TelOp
  deriving DecidableEq

/-- The two shared cells `g_flow_x100` and `g_err`. -/
structure TelState where
  flow : Nat
  err : Nat
  deriving DecidableEq

/-- Is the operation one of the writer's (sampler's) operations? -/
def isWrite : TelOp → Bool
  | TelOp.wErr _ => true
  | TelOp.wFlow _ => true
  | _ => false

/-- Values successively stored to the flow cell by a trace. -/
def flowWrites : List TelOp → List Nat
  | [] => []
  | TelOp.wFlow v :: t => v :: flowWrites t
  | _ :: t => flowWrites t

/-- Values successively stored to the err cell by a trace. -/
def errWrites : List TelOp → List Nat
  | [] => []
  | TelOp.wErr v :: t => v :: errWrites t
  | _ :: t => errWrites t

/-- Values obtained by the flow reads of a trace, run atomically from
state `s`. -/
def flowReads (s : TelState) : List TelOp → List Nat
  | [] => []
  | TelOp.wErr v :: t => flowReads { s with err := v } t
  | TelOp.wFlow v :: t => flowReads { s with flow := v } t
  | TelOp.rFlow :: t => s.flow :: flowReads s t
  | TelOp.rErr :: t => flowReads s t

/-- Values obtained by the err reads of a trace, run atomically from
state `s`. -/
def errReads (s : TelState) : List TelOp → List Nat
  | [] => []
  | TelOp.wErr v :: t => errReads { s with err := v } t
  | TelOp.wFlow v :: t => errReads { s with flow := v } t
  | TelOp.rFlow :: t => errReads s t
  | TelOp.rErr :: t => s.err :: errReads s t

/-- The sampler's operations for two passes, in source order (`sample_cb`
writes err first, then flow): pass one publishes `(err 0, flow 100)`, pass
two `(err 1, flow 0)`. -/
def writerProg : List TelOp :=
  [TelOp.wErr 0, TelOp.wFlow 100, TelOp.wErr 1, TelOp.wFlow 0]

/-- The reader's operations in source order (the BLE event handler reads
flow first, then err). -/
def readerProg : List TelOp := [TelOp.rFlow, TelOp.rErr]

/-- An interleaving of `writerProg` and `readerProg` in which the reader
runs between the two passes' write sequences... the read pair mixes the
passes. -/
def badTrace : List TelOp :=
  [TelOp.wErr 0, TelOp.wFlow 100, TelOp.rFlow, TelOp.wErr 1, TelOp.wFlow 0,
   TelOp.rErr]

/-- Claim C6 counterexample: `badTrace` is a legal interleaving (its write
subsequence is exactly the sampler's two passes and its read subsequence
exactly the reader's flow-then-err read), yet the reader observes the pair
(100, 1), which no single pass produced: the initial pair is (0, 0), pass
one wrote (100, 0), pass two wrote (0, 1).  The per-field critical sections
of app.c do not make the pair atomic. -/
theorem c6_torn_pair_interleaving :
    badTrace.filter isWrite = writerProg ∧
    badTrace.filter (fun o => ! isWrite o) = readerProg ∧
    flowReads ⟨0, 0⟩ badTrace = [100] ∧
    errReads ⟨0, 0⟩ badTrace = [1] ∧
    ((100, 1) : Nat × Nat) ∉ ([(0, 0), (100, 0), (0, 1)] : List (Nat × Nat)) := by
  decide

/-- Claim C6 amended: each individual field is torn-free — every value a
read returns for the flow (resp. err) cell is the initial value of that
cell or a value some single write stored to it — but the `(flow, err)` pair
is not written atomically, so an interleaved reader may combine fields of
two different passes (see the counterexample). -/
theorem c6_field_reads_are_single_writes (s : TelState) (t : List TelOp) :
    (∀ v ∈ flowReads s t, v = s.flow ∨ v ∈ flowWrites t) ∧
    (∀ v ∈ errReads s t, v = s.err ∨ v ∈ errWrites t) := by
  induction t generalizing s with
  | nil =>
      constructor
      · intro v hv
        cases hv
      · intro v hv
        cases hv
  | cons op t ih =>
      constructor
      · intro v hv
        cases op with
        | wErr w => exact (ih { s with err := w }).1 v hv
        | wFlow w =>
            rcases (ih { s with flow := w }).1 v hv with h | h
            · exact Or.inr (List.mem_cons.mpr (Or.inl h))
            · exact Or.inr (List.mem_cons.mpr (Or.inr h))
        | rFlow =>
            rcases List.mem_cons.mp hv with h | h
            · exact Or.inl h
            · exact (ih s).1 v h
        | rErr => exact (ih s).1 v hv
      · intro v hv
        cases op with
        | wErr w =>
            rcases (ih { s with err := w }).2 v hv with h | h
            · exact Or.inr (List.mem_cons.mpr (Or.inl h))
            · exact Or.inr (List.mem_cons.mpr (Or.inr h))
        | wFlow w => exact (ih { s with flow := w }).2 v hv
        | rFlow => exact (ih s).2 v hv
        | rErr =>
            rcases List.mem_cons.mp hv with h | h
            · exact Or.inl h
            · exact (ih s).2 v h

/-- Witness for the amended C6 theorem: the values the reader obtained in
`badTrace` are each accounted for by a single write of that field. -/
theorem c6_field_reads_are_single_writes_witness :
    (100 = (0 : Nat) ∨ 100 ∈ flowWrites badTrace) ∧
    (1 = (0 : Nat) ∨ 1 ∈ errWrites badTrace) :=
  ⟨(c6_field_reads_are_single_writes ⟨0, 0⟩ badTrace).1 100 (by decide),
   (c6_field_reads_are_single_writes ⟨0, 0⟩ badTrace).2 1 (by decide)⟩

end Hydro
